import Mathlib

/-!
A verification development for the caledonia-1874 web application's
selection/synchronization core.  The JavaScript sources are shallowly
embedded: pure computations become Lean functions, the reactive stores
become explicit state-passing functions, fallible code returns
`Option`/`Except`, and the two unbounded `while` loops are given an
explicit fuel parameter (`none` = the loop has not finished within the
given fuel, so `∀ fuel, … = none` expresses divergence).

Source files referenced below:
* `part_000`   — the single-file panel app (store, data load, renderInfo,
  selection API, map:click listeners, preview strip, commitSelection).
* `app/js/data.js`   — `loadAllData`, `placeLineage`.
* `app/js/util.js`   — `isDescendantOfUSA`.
* `app/js/layers.js` (= `part_003`) — `getTileLayerMaxZoom`, `clampZoom`,
  `originPopupHtml`'s `familiesForOrigin`.
* `app/js/store.js`  — the highlight-set store (`setActiveParcels`,
  `setActiveOrigins`, `clear`).
-/

/-! ### Generic JavaScript-semantics helpers -/

/-- Lookup in a JS object used as a string-keyed table (`obj[key]`),
modelled as an association list: `none` plays the role of `undefined`. -/
def jsGet {α : Type} (tbl : List (String × α)) (k : String) : Option α :=
  match tbl with
  | [] => none
  | (k', v) :: rest => if k' = k then some v else jsGet rest k

/-- One insertion into a JS `Set`: ignored if already present, appended
otherwise (JS sets keep insertion order — first occurrence wins). -/
def jsSetAdd (acc : List String) (x : String) : List String :=
  if x ∈ acc then acc else acc ++ [x]

/-- `Array.from(new Set(l))`: deduplication keeping the first occurrence
of each element, in insertion order. -/
def jsDedup (l : List String) : List String := l.foldl jsSetAdd []

/-- ASCII lowering of one character (the effect of `toLowerCase` on the
identifiers and labels this dataset uses). -/
def lowerChar (c : Char) : Char :=
  if c.isUpper then Char.ofNat (c.toNat + 32) else c

/-- Lowercase a whole string, character by character. -/
def strLower (s : String) : String := ⟨s.data.map lowerChar⟩

/-- Boolean comparison of two characters by code point. -/
def charLe (a b : Char) : Bool := decide (a.toNat ≤ b.toNat)

/-- Lexicographic comparison of two character lists. -/
def lexLe : List Char → List Char → Bool
  | [], _ => true
  | _ :: _, [] => false
  | a :: as, b :: bs => if a = b then lexLe as bs else charLe a b

/-- Model of `byAlpha` (`part_000` line 14):
`(a, b) => a.localeCompare(b, undefined, { sensitivity: 'base' })`,
a case-insensitive alphabetical comparator.  Locale collation is modelled
as case-insensitive lexicographic comparison on code points; no claim in
this development depends on the collation of two distinct strings. -/
def ciByAlpha (a b : String) : Bool :=
  lexLe (a.data.map lowerChar) (b.data.map lowerChar)

/-- Stable insertion of one element into a list sorted by `le`. -/
def orderedInsertJS (le : String → String → Bool) (a : String) :
    List String → List String
  | [] => [a]
  | b :: bs => if le a b then a :: b :: bs else b :: orderedInsertJS le a bs

/-- Model of `Array.prototype.sort(comparator)`: a stable comparator sort
(insertion sort). -/
def sortJS (le : String → String → Bool) : List String → List String
  | [] => []
  | x :: xs => orderedInsertJS le x (sortJS le xs)

/-! ### The dataset

`Dataset` merges the fields of `part_000`'s `Data` object (lines 46-53)
and `data.js`'s `Data` object; every embedded function reads exactly the
fields its source file reads, so a field unknown to a given source file
is simply never consulted by that file's functions. -/

/-- One alternate name of a place (`alt_names` entries in origins.json). -/
structure AltName where
  lang : String
  value : String
deriving DecidableEq

/-- One origins-table record (`origins.json` value: `{name, parent?,
type?, alt_names?}`).  `parent := none` models an absent or null parent;
geographic coordinates are not consulted by any claim and are omitted. -/
structure OriginRec where
  name : String
  parent : Option String
  type : Option String
  altNames : List AltName
deriving DecidableEq

/-- One families-table record (`families.json` value `{id, label}`);
an absent/falsy label is modelled as the empty string. -/
structure Family where
  id : String
  label : String
deriving DecidableEq

/-- An id → list-of-related-ids cross-reference index. -/
abbrev IndexTable := List (String × List String)

/-- The in-memory dataset (union of the fields of `part_000`'s `Data`
and `data.js`'s `Data` that the claims touch). -/
structure Dataset where
  families : List (String × Family)
  origins : List (String × OriginRec)
  familyOriginIndex : IndexTable
  originFamilyIndex : IndexTable
  familyParcelIndex : IndexTable
  parcelFamilyIndex : IndexTable
  originParcelIndex : IndexTable
deriving DecidableEq

/-! ### Startup loading (`part_000` lines 5-13 and 55-78; `data.js`
lines 13-30) -/

/-- The outcome of one `fetch(...).json()` attempt: `success v` when the
resource was fetched with an ok status and parsed; `failure` for a
network error, a non-ok HTTP status, or malformed JSON. -/
inductive FetchOutcome (α : Type) where
  | success (v : α)
  | failure
deriving DecidableEq

/-- `jget` (`part_000` lines 5-13): wraps fetch+parse in try/catch and
returns `null` on any failure. -/
def jget {α : Type} : FetchOutcome α → Option α
  | .success v => some v
  | .failure => none

/-- `part_000`'s `Data` shape as populated by its `loadAll` (lines 46-53). -/
structure Part0Data where
  families : List (String × Family)
  origins : List (String × OriginRec)
  familyOriginIndex : IndexTable
  originFamilyIndex : IndexTable
  familyParcelIndex : IndexTable
  parcelFamilyIndex : IndexTable
deriving DecidableEq

/-- `loadAll` (`part_000` lines 55-78): six independent `jget`s combined
with `Promise.all`; each field is `jget(resource) || {}`.  `jget` never
rejects, so `Promise.all` always resolves. -/
def loadAll (rFamilies : FetchOutcome (List (String × Family)))
    (rOrigins : FetchOutcome (List (String × OriginRec)))
    (rFoi rOfi rFpi rPfi : FetchOutcome IndexTable) : Part0Data :=
  { families := (jget rFamilies).getD []
    origins := (jget rOrigins).getD []
    familyOriginIndex := (jget rFoi).getD []
    originFamilyIndex := (jget rOfi).getD []
    familyParcelIndex := (jget rFpi).getD []
    parcelFamilyIndex := (jget rPfi).getD [] }

/-- `loadAllData` (`data.js` lines 13-30): five fetches combined with
`Promise.all`.  Only the `origin_parcel_index.json` fetch carries
`r.ok ? r.json() : ({})` and `.catch(() => ({}))`; the other four
promises reject on failure, and a rejection of any of them rejects the
whole `Promise.all` (modelled as `Except.error ()`). -/
def loadAllData {α β γ ε : Type} (persons : FetchOutcome α)
    (parcelIndex : FetchOutcome β) (origins : FetchOutcome γ)
    (originParcelIndex : FetchOutcome IndexTable)
    (parcelsGeoJSON : FetchOutcome ε) : Except Unit (α × β × γ × IndexTable × ε) :=
  match persons, parcelIndex, origins, parcelsGeoJSON with
  | .success p, .success pidx, .success o, .success g =>
      .ok (p, pidx, o, (jget originParcelIndex).getD [], g)
  | _, _, _, _ => .error ()

/-! ### The panel store (`part_000` lines 25-42) and its state -/

/-- A committed selection `{type, id}` (`part_000` line 29). -/
structure Sel where
  type : String
  id : String
deriving DecidableEq

/-- A preview record `{type, id, label}` surfaced in the preview strip. -/
structure PreviewRec where
  type : String
  id : String
  label : String
deriving DecidableEq

/-- The panel store's state (`part_000` lines 26-33).  The initializer
writes the typo'd key `review: null` while `renderPreview` and the
preview handlers read and write `preview`; both keys start out
null/undefined, which `renderPreview` treats identically, so the state is
modelled with the single `preview` field the running code consults. -/
structure PanelState where
  tab : String
  filter : String
  selection : Option Sel
  followClicks : Bool
  autoSwitchTabs : Bool
  preview : Option PreviewRec
deriving DecidableEq

/-- The initial panel state (`part_000` lines 26-33). -/
def initPanelState : PanelState :=
  { tab := "families", filter := "", selection := none,
    followClicks := false, autoSwitchTabs := false, preview := none }

/-- A partial update passed to `Store.set` — one optional value per
state field; `some v` means the patch names the field with value `v`. -/
structure PanelPatch where
  tab : Option String
  filter : Option String
  selection : Option (Option Sel)
  followClicks : Option Bool
  autoSwitchTabs : Option Bool
  preview : Option (Option PreviewRec)
deriving DecidableEq

/-- The empty patch. -/
def emptyPatch : PanelPatch := ⟨none, none, none, none, none, none⟩

/-- The spread `{ ...state, ...patch }` of `Store.set`
(`part_000` line 37): a shallow merge. -/
def applyPatch (s : PanelState) (p : PanelPatch) : PanelState :=
  { tab := p.tab.getD s.tab
    filter := p.filter.getD s.filter
    selection := p.selection.getD s.selection
    followClicks := p.followClicks.getD s.followClicks
    autoSwitchTabs := p.autoSwitchTabs.getD s.autoSwitchTabs
    preview := p.preview.getD s.preview }

/-- `Store.set` (`part_000` lines 36-39): replace the state by the
shallow merge, then synchronously call every subscriber with the new
state.  Subscribers are modelled by identifiers; the returned list is
the sequence of notification calls `(subscriber, snapshot passed)`. -/
def storeSet (s : PanelState) (subs : List Nat) (p : PanelPatch) :
    PanelState × List (Nat × PanelState) :=
  let s1 := applyPatch s p
  (s1, subs.map (fun i => (i, s1)))

/-! ### The selection API and map-click listeners (`part_000`
lines 286-300 and 339-350) -/

/-- `selectFamily` (`part_000` lines 286-289): commits the selection via
`Store.set`; `renderInfo()` is a projection of the new state and changes
no store field. -/
def selectFamily (s : PanelState) (fid : String) : PanelState :=
  applyPatch s { emptyPatch with selection := some (some ⟨"family", fid⟩) }

/-- `selectOrigin` (`part_000` lines 290-293). -/
def selectOrigin (s : PanelState) (oph : String) : PanelState :=
  applyPatch s { emptyPatch with selection := some (some ⟨"origin", oph⟩) }

/-- `selectParcel` (`part_000` lines 294-297). -/
def selectParcel (s : PanelState) (pk : String) : PanelState :=
  applyPatch s { emptyPatch with selection := some (some ⟨"parcel", pk⟩) }

/-- The `map:click:origin` window listener (`part_000` lines 339-342):
`const handle = e.detail?.handle; if (handle) selectOrigin(handle);`.
The `commit` field of the payload is never read. -/
def handleMapClickOrigin (s : PanelState) (handle : String) (commit : Bool) :
    PanelState :=
  if handle = "" then s else selectOrigin s handle

/-- The `map:click:parcel` window listener (`part_000` lines 343-346);
the `commit` field of the payload is never read. -/
def handleMapClickParcel (s : PanelState) (key : String) (commit : Bool) :
    PanelState :=
  if key = "" then s else selectParcel s key

/-- The `map:click:family` window listener (`part_000` lines 347-350);
the `commit` field of the payload is never read. -/
def handleMapClickFamily (s : PanelState) (fid : String) (commit : Bool) :
    PanelState :=
  if fid = "" then s else selectFamily s fid

/-! ### Tab activation and commitSelection (`part_000` lines 304-314
and 377-392) -/

/-- The tab targeted by an entity kind (`part_000` line 380). -/
def targetTabFor (type_ : String) : String :=
  if type_ = "family" then "families"
  else if type_ = "origin" then "origins" else "parcels"

/-- `activateTab` (`part_000` lines 304-314): sets the tab, then clears
the text filter (`el.filter.value = ''; Store.set({filter: ''})`); the
DOM class toggles and `renderBrowserList()` are projections. -/
def activateTab (s : PanelState) (tab : String) : PanelState :=
  applyPatch (applyPatch s { emptyPatch with tab := some tab })
    { emptyPatch with filter := some "" }

/-- `commitSelection` (`part_000` lines 377-392).  The boolean result
records whether the tab-switch branch ran (`activateTab` plus the purely
cosmetic 1200 ms pulse).  `shouldSwitch` is computed from the snapshot
taken before the selection is stored, exactly as in the source. -/
def commitSelection (s : PanelState) (type_ id : String)
    (forceTabSwitch : Bool) : PanelState × Bool :=
  let targetTab := targetTabFor type_
  let shouldSwitch :=
    forceTabSwitch || (s.autoSwitchTabs && decide (s.tab ≠ targetTab))
  let s1 := applyPatch s { emptyPatch with selection := some (some ⟨type_, id⟩) }
  if shouldSwitch then (activateTab s1 targetTab, true) else (s1, false)

/-! ### The info panel's relation lists (`part_000` lines 165-282)

`renderInfo` paints three kinds of panels; the functions below compute
the entity lists each branch derives from the dataset (the DOM nodes,
and the `ui:highlight`/`ui:focus` payloads, are built from exactly these
lists). -/

/-- `Data.families[sel.id] || { id: sel.id, ... }` followed by `fam.id`
(`part_000` line 175). -/
def resolvedFamilyId (d : Dataset) (selId : String) : String :=
  match jsGet d.families selId with
  | some f => f.id
  | none => selId

/-- `Data.origins[oph]?.name || oph` (`part_000` line 178). -/
def originName (d : Dataset) (oph : String) : String :=
  match jsGet d.origins oph with
  | some p => if p.name = "" then oph else p.name
  | none => oph

/-- Family branch, origins list (`part_000` lines 176-179): the direct
`familyOriginIndex` entry mapped to `{handle, name}` pairs — no
deduplication and no sort. -/
def renderInfoFamilyOrigins (d : Dataset) (selId : String) :
    List (String × String) :=
  ((jsGet d.familyOriginIndex (resolvedFamilyId d selId)).getD []).map
    (fun oph => (oph, originName d oph))

/-- Family branch, parcels list (`part_000` line 180): a copy
(`.slice()`) of the direct `familyParcelIndex` entry. -/
def renderInfoFamilyParcels (d : Dataset) (selId : String) : List String :=
  (jsGet d.familyParcelIndex (resolvedFamilyId d selId)).getD []

/-- Origin branch, families list (`part_000` line 216): the direct
`originFamilyIndex` entry, sorted — no deduplication. -/
def renderInfoOriginFamilies (d : Dataset) (oid : String) : List String :=
  sortJS ciByAlpha ((jsGet d.originFamilyIndex oid).getD [])

/-- Origin branch, parcel list before deduplication (`part_000`
lines 217-220): join through the related families' parcel lists,
`.filter(Boolean)`, then sort.  The direct `originParcelIndex` is never
consulted here. -/
def renderInfoOriginParcelsRaw (d : Dataset) (oid : String) : List String :=
  sortJS ciByAlpha
    (((renderInfoOriginFamilies d oid).flatMap
        (fun fid => (jsGet d.familyParcelIndex fid).getD [])).filter
      (fun pk => pk ≠ ""))

/-- Origin branch, parcel list as displayed and as emitted in the
highlight payload (`part_000` lines 237 and 246):
`Array.from(new Set(parcels))`. -/
def renderInfoOriginParcels (d : Dataset) (oid : String) : List String :=
  jsDedup (renderInfoOriginParcelsRaw d oid)

/-- Parcel branch, families list (`part_000` line 250): the direct
`parcelFamilyIndex` entry, sorted — no deduplication. -/
def renderInfoParcelFamilies (d : Dataset) (pk : String) : List String :=
  sortJS ciByAlpha ((jsGet d.parcelFamilyIndex pk).getD [])

/-- Parcel branch, origins list (`part_000` lines 251-253):
`Array.from(new Set(families.flatMap(fid => familyOriginIndex[fid] || [])))`. -/
def renderInfoParcelOrigins (d : Dataset) (pk : String) : List String :=
  jsDedup
    ((renderInfoParcelFamilies d pk).flatMap
      (fun fid => (jsGet d.familyOriginIndex fid).getD []))

/-! ### `familiesForOrigin` (`layers.js` lines 63-71, = `part_003`
lines 90-98) -/

/-- The fallback derivation: join through `originParcelIndex` and
`parcelFamilyIndex`, collected into a `Set`. -/
def familiesForOriginDerived (d : Dataset) (handle : String) : List String :=
  jsDedup
    (((jsGet d.originParcelIndex handle).getD []).flatMap
      (fun pk => (jsGet d.parcelFamilyIndex pk).getD []))

/-- `familiesForOrigin` inside `originPopupHtml`: prefer the direct
`originFamilyIndex` entry when it is a non-empty array
(`Array.from(new Set(direct))`), otherwise derive through
origin→parcel→family. -/
def familiesForOrigin (d : Dataset) (handle : String) : List String :=
  match jsGet d.originFamilyIndex handle with
  | some direct =>
      if direct = [] then familiesForOriginDerived d handle
      else jsDedup direct
  | none => familiesForOriginDerived d handle

/-! ### Viewport zoom clamping (`layers.js`/`part_003` lines 13-34) -/

/-- A JavaScript number as far as `Number.isFinite` is concerned:
`fin q` is a finite value; `nonfin` stands for `Infinity`, `undefined`
or `NaN`, all of which `Number.isFinite` rejects and which only ever
arise here as "no bound".  Zoom values are modelled as integers; no
claim depends on fractional zooms. -/
inductive JsNum where
  | fin : ℤ → JsNum
  | nonfin : JsNum
deriving DecidableEq

/-- `Number.isFinite`. -/
def JsNum.isFinite : JsNum → Bool
  | .fin _ => true
  | .nonfin => false

/-- `list.filter(z => Number.isFinite(z))`, projected to the finite
values. -/
def finiteVals (l : List JsNum) : List ℤ :=
  l.filterMap (fun z => match z with | .fin q => some q | .nonfin => none)

/-- `Math.min(...caps)`: the minimum of the arguments, or `Infinity`
when called with no arguments. -/
def mathMin (caps : List ℤ) : JsNum :=
  match caps with
  | [] => .nonfin
  | c :: cs => .fin (cs.foldl min c)

/-- `getTileLayerMaxZoom` (`part_003` lines 13-24): the minimum of the
finite `options.maxZoom` values of the mounted tile layers, or
`undefined` when none is finite.  The input list holds each mounted tile
layer's `options.maxZoom`. -/
def getTileLayerMaxZoom (tileMaxZooms : List JsNum) : JsNum :=
  mathMin (finiteVals tileMaxZooms)

/-- `clampZoom` (`part_003` lines 26-34): filter the four candidates to
the finite ones and take `Math.min` — which is `Infinity` when every
candidate is non-finite.  The result is the zoom that `api.fit` passes
to `map.setView` in both the single-point and the multi-point case. -/
def clampZoom (requestedZoom optMaxZoom mapMaxZoom : JsNum)
    (tileMaxZooms : List JsNum) : JsNum :=
  mathMin
    (finiteVals
      [requestedZoom, optMaxZoom, mapMaxZoom, getTileLayerMaxZoom tileMaxZooms])

/-! ### Parent-chain walks: `isDescendantOfUSA` (`util.js` lines 10-18)
and `placeLineage` (`data.js` lines 33-58)

Both contain unbounded `while` loops and are embedded with a fuel
parameter: a result of `none` means the loop did not finish within the
given fuel, so `∀ fuel, … = none` states divergence.  A thrown JS
exception is an `Except.error`. -/

/-- The loop of `isDescendantOfUSA`.  The guard is
`current && current.parent` (an absent record or an absent/empty parent
handle exits with `false`); the body reads `parentObj.name` without
checking that `parentObj` is defined, so a dangling parent handle throws
a `TypeError`. -/
def isDescLoop (origins : List (String × OriginRec)) :
    Option OriginRec → Nat → Option (Except String Bool)
  | _, 0 => none
  | curr, fuel + 1 =>
    match curr with
    | none => some (.ok false)
    | some c =>
      match c.parent with
      | none => some (.ok false)
      | some ph =>
        if ph = "" then some (.ok false)
        else
          match jsGet origins ph with
          | none => some (.error "TypeError: cannot read name of undefined")
          | some pObj =>
            if pObj.name = "USA" then some (.ok true)
            else isDescLoop origins (some pObj) fuel

/-- `isDescendantOfUSA(handle)` (`util.js` lines 10-18, identical in
`part_001`), with fuel. -/
def isDescendantOfUSA (origins : List (String × OriginRec)) (handle : String)
    (fuel : Nat) : Option (Except String Bool) :=
  isDescLoop origins (jsGet origins handle) fuel

/-- The alternate-name decoration of one lineage label
(`data.js` lines 46-49): applied only when `includeAlt` and a truthy
`altLang` are supplied and a matching `alt_names` entry with a truthy
value exists. -/
def altDecorate (includeAlt : Bool) (altLang : Option String) (p : OriginRec)
    (label : String) : String :=
  if includeAlt then
    match altLang with
    | some lang =>
      if lang = "" then label
      else
        match p.altNames.find? (fun a => strLower a.lang = strLower lang) with
        | some a => if a.value = "" then label else label ++ " (" ++ a.value ++ ")"
        | none => label
    | none => label
  else label

/-- `h = p.parent || null` (`data.js` line 53): an absent or empty
parent handle ends the walk. -/
def jsParent (p : OriginRec) : Option String :=
  match p.parent with
  | some ps => if ps = "" then none else some ps
  | none => none

/-- `stopTypes.includes(p.type)` (`data.js` line 52): false when the
record has no type. -/
def stopCheck (stopTypes : List String) (ptype : Option String) : Bool :=
  match ptype with
  | some t => decide (t ∈ stopTypes)
  | none => false

/-- The `while (h && origins[h])` loop of `placeLineage`
(`data.js` lines 42-54), with fuel.  Each pass pushes the record's label
(`p.name || h`, alt-decorated), stops after the push when the record's
type is in `stopTypes`, and otherwise follows the parent pointer. -/
def lineageLoop (origins : List (String × OriginRec)) (stopTypes : List String)
    (includeAlt : Bool) (altLang : Option String) :
    Option String → List String → Nat → Option (List String)
  | _, _, 0 => none
  | h, names, fuel + 1 =>
    match h with
    | none => some names
    | some hh =>
      if hh = "" then some names
      else
        match jsGet origins hh with
        | none => some names
        | some p =>
          let label :=
            altDecorate includeAlt altLang p (if p.name = "" then hh else p.name)
          let names1 := names ++ [label]
          let stopHere : Bool := stopCheck stopTypes p.type
          if stopHere then some names1
          else lineageLoop origins stopTypes includeAlt altLang (jsParent p) names1 fuel

/-- The lineage result `{ labels, text: labels.join(', ') }`. -/
structure Lineage where
  labels : List String
  text : String
deriving DecidableEq

/-- `labels.join(', ')`. -/
def joinComma : List String → String
  | [] => ""
  | x :: xs => xs.foldl (fun acc s2 => acc ++ ", " ++ s2) x

/-- `placeLineage(handle, opts)` (`data.js` lines 34-58), with fuel.
The inner `Option` is the JS `null` returned for a falsy or unknown
handle.  The `lineageCache` memoization only replays a previous result
and does not change first-call semantics, so it is not modelled. -/
def placeLineage (origins : List (String × OriginRec)) (handle : String)
    (stopTypes : List String) (includeAlt : Bool) (altLang : Option String)
    (fuel : Nat) : Option (Option Lineage) :=
  if handle = "" then some none
  else
    match jsGet origins handle with
    | none => some none
    | some _ =>
      (lineageLoop origins stopTypes includeAlt altLang (some handle) [] fuel).map
        (fun names => some ⟨names, joinComma names⟩)

/-! ### The highlight store (`store.js` lines 1-20)

`state.activeParcels`/`state.activeOrigins` hold JS `Set` objects.  To
observe object identity (which JS subscribers can memoize on), each set
is modelled with an allocation tag `ref`; `nextRef` is the allocator.
`setActiveParcels`/`setActiveOrigins` build `new Set(...)` — a fresh
tag — while `clear()` calls `.clear()` on the existing objects, keeping
their tags. -/

/-- A JS `Set` object: an identity tag plus its (deduplicated,
insertion-ordered) elements. -/
structure JsSetObj where
  ref : Nat
  elems : List String
deriving DecidableEq

/-- The highlight store's state. -/
structure HLState where
  activeParcels : JsSetObj
  activeOrigins : JsSetObj
  nextRef : Nat
deriving DecidableEq

/-- Allocation sanity: every live set object was allocated before
`nextRef`. -/
def HLState.WF (s : HLState) : Prop :=
  s.activeParcels.ref < s.nextRef ∧ s.activeOrigins.ref < s.nextRef

namespace HLStore

/-- `setActiveParcels(keys, {merge})` (`store.js` lines 10-13): installs
a freshly constructed `Set` (replace or union), then notifies. -/
def setActiveParcels (s : HLState) (keys : List String) (merge : Bool) : HLState :=
  { s with
    activeParcels :=
      ⟨s.nextRef, if merge then jsDedup (s.activeParcels.elems ++ keys) else jsDedup keys⟩
    nextRef := s.nextRef + 1 }

/-- `setActiveOrigins(handles, {merge})` (`store.js` lines 14-17). -/
def setActiveOrigins (s : HLState) (handles : List String) (merge : Bool) : HLState :=
  { s with
    activeOrigins :=
      ⟨s.nextRef, if merge then jsDedup (s.activeOrigins.elems ++ handles) else jsDedup handles⟩
    nextRef := s.nextRef + 1 }

/-- `clear()` (`store.js` line 18): `state.activeParcels.clear();
state.activeOrigins.clear(); notify()` — the existing `Set` objects are
emptied in place, not replaced. -/
def clear (s : HLState) : HLState :=
  { s with
    activeParcels := ⟨s.activeParcels.ref, []⟩
    activeOrigins := ⟨s.activeOrigins.ref, []⟩ }

end HLStore

/-! ## Helper lemmas -/

/-- Adding to a JS set preserves the no-duplicates invariant. -/
theorem jsSetAdd_nodup {acc : List String} (h : acc.Nodup) (x : String) :
    (jsSetAdd acc x).Nodup := by
  unfold jsSetAdd
  split
  · exact h
  · next hx => simp [List.nodup_append, h, hx]

/-- Folding JS-set insertions over any list preserves no-duplicates. -/
theorem foldl_jsSetAdd_nodup (l : List String) :
    ∀ acc : List String, acc.Nodup → (l.foldl jsSetAdd acc).Nodup := by
  induction l with
  | nil => intro acc h; simpa using h
  | cons x xs ih => intro acc h; exact ih _ (jsSetAdd_nodup h x)

/-- `Array.from(new Set(l))` never contains duplicates. -/
theorem jsDedup_nodup (l : List String) : (jsDedup l).Nodup :=
  foldl_jsSetAdd_nodup l [] (by simp)

/-- A running minimum is bounded by its seed. -/
theorem foldl_min_le_head (c : ℤ) (cs : List ℤ) : cs.foldl min c ≤ c := by
  induction cs generalizing c with
  | nil => simp
  | cons b bs ih => exact le_trans (ih (min c b)) (min_le_left c b)

/-- A running minimum is bounded by every element folded over. -/
theorem foldl_min_le_mem (c : ℤ) (cs : List ℤ) (x : ℤ) (hx : x ∈ cs) :
    cs.foldl min c ≤ x := by
  induction cs generalizing c with
  | nil => cases hx
  | cons b bs ih =>
    rcases List.mem_cons.mp hx with rfl | h2
    · exact le_trans (foldl_min_le_head (min c x) bs) (min_le_right c x)
    · exact ih (min c b) h2

/-- A running minimum is attained by the seed or some element. -/
theorem foldl_min_mem (c : ℤ) (cs : List ℤ) : cs.foldl min c ∈ c :: cs := by
  induction cs generalizing c with
  | nil => simp
  | cons b bs ih =>
    have h2 := ih (min c b)
    simp only [List.foldl_cons]
    rcases List.mem_cons.mp h2 with heq | hmem
    · rcases min_choice c b with h3 | h3
      · rw [heq, h3]; exact List.mem_cons_self _ _
      · rw [heq, h3]; simp
    · exact List.mem_cons.mpr (Or.inr (List.mem_cons.mpr (Or.inr hmem)))

/-- `Math.min(...caps)` is `Infinity` exactly on an empty argument list. -/
theorem mathMin_eq_nonfin_iff (caps : List ℤ) :
    mathMin caps = .nonfin ↔ caps = [] := by
  cases caps <;> simp [mathMin]

/-- A finite `Math.min(...caps)` result is one of the arguments. -/
theorem mathMin_fin_mem (caps : List ℤ) (q : ℤ) (hq : mathMin caps = .fin q) :
    q ∈ caps := by
  cases caps with
  | nil => simp [mathMin] at hq
  | cons c cs =>
    simp only [mathMin, JsNum.fin.injEq] at hq
    rw [← hq]
    exact foldl_min_mem c cs

/-- A finite `Math.min(...caps)` result bounds every argument. -/
theorem mathMin_fin_le (caps : List ℤ) (q : ℤ) (hq : mathMin caps = .fin q) :
    ∀ x ∈ caps, q ≤ x := by
  cases caps with
  | nil => simp [mathMin] at hq
  | cons c cs =>
    simp only [mathMin, JsNum.fin.injEq] at hq
    intro x hx
    rw [← hq]
    rcases List.mem_cons.mp hx with rfl | h2
    · exact foldl_min_le_head x cs
    · exact foldl_min_le_mem c cs x h2

/-- Divergence of the `isDescendantOfUSA` loop on a self-referential
parent pointer whose record is not named `USA`: no amount of fuel
finishes the loop. -/
theorem isDescLoop_selfloop (origins : List (String × OriginRec)) (h : String)
    (pname : String) (ptype : Option String) (palt : List AltName)
    (hlook : jsGet origins h = some ⟨pname, some h, ptype, palt⟩)
    (hne : h ≠ "") (hnusa : pname ≠ "USA") :
    ∀ fuel, isDescLoop origins (some ⟨pname, some h, ptype, palt⟩) fuel = none := by
  intro fuel
  induction fuel with
  | zero => rfl
  | succ n ih =>
    simp only [isDescLoop, hlook, if_neg hne, if_neg hnusa]
    exact ih

/-- The stop-type test of the `placeLineage` loop
(`stopTypes.includes(p.type)`) is false when the record's type is not a
stop type. -/
theorem stopCheck_false (ptype : Option String) (stopTypes : List String)
    (hstop : ∀ t, ptype = some t → t ∉ stopTypes) :
    stopCheck stopTypes ptype = false := by
  cases ptype with
  | none => rfl
  | some t => simpa [stopCheck] using hstop t rfl

/-- Divergence of the `placeLineage` loop on a self-referential parent
pointer whose type is not a stop type: no amount of fuel finishes. -/
theorem lineageLoop_selfloop (origins : List (String × OriginRec)) (h : String)
    (pname : String) (ptype : Option String) (palt : List AltName)
    (stopTypes : List String) (ia : Bool) (al : Option String)
    (hlook : jsGet origins h = some ⟨pname, some h, ptype, palt⟩)
    (hne : h ≠ "")
    (hstop : ∀ t, ptype = some t → t ∉ stopTypes) :
    ∀ fuel names,
      lineageLoop origins stopTypes ia al (some h) names fuel = none := by
  have hstopb := stopCheck_false ptype stopTypes hstop
  intro fuel
  induction fuel with
  | zero => intro names; rfl
  | succ n ih =>
    intro names
    simp only [lineageLoop, hlook, if_neg hne, hstopb, jsParent,
      Bool.false_eq_true, if_false]
    exact ih _

/-! ## Concrete inputs used by counterexamples and witnesses -/

/-- A dataset in which the direct origin→parcel index entry for `o1`
exists and is non-empty (`["1874:99"]`) while the family join through
`originFamilyIndex` and `familyParcelIndex` yields `["1874:10"]`. -/
def d2 : Dataset :=
  { families := [], origins := [],
    familyOriginIndex := [],
    originFamilyIndex := [("o1", ["f1"])],
    familyParcelIndex := [("f1", ["1874:10"])],
    parcelFamilyIndex := [],
    originParcelIndex := [("o1", ["1874:99"])] }

/-- A dataset whose `familyOriginIndex` entry for `f1` contains the
duplicate handle `o1` twice. -/
def d3 : Dataset :=
  { families := [], origins := [],
    familyOriginIndex := [("f1", ["o1", "o1"])],
    originFamilyIndex := [], familyParcelIndex := [],
    parcelFamilyIndex := [], originParcelIndex := [] }

/-- An origins table whose only record has a dangling parent handle:
`a_h`'s parent `b_h` is absent from the table. -/
def danglingTable : List (String × OriginRec) :=
  [("a_h", ⟨"Caledonia", some "b_h", none, []⟩)]

/-- An origins table whose parent pointers form a cycle (a self-loop)
through a record named `USA`. -/
def usaLoopTable : List (String × OriginRec) :=
  [("usa_h", ⟨"USA", some "usa_h", none, []⟩)]

/-- An origins table whose parent pointers form a cycle (a self-loop)
through a record named neither `USA` nor of a stopped type. -/
def villageLoopTable : List (String × OriginRec) :=
  [("b_h", ⟨"Bruessow", some "b_h", some "Village", []⟩)]

/-- A patch naming only the `filter` field. -/
def schPatch : PanelPatch := ⟨none, some "sch", none, none, none, none⟩

/-- A highlight-store state with two live set objects allocated at tags
0 and 1 and the allocator at 2. -/
def hl0 : HLState := ⟨⟨0, ["1874:10"]⟩, ⟨1, ["o1"]⟩, 2⟩

/-! ## Claim theorems -/

/-- Claim C1 (code bug evidence): the `map:click:*` window listeners of
`part_000` never read the `commit` flag.  Dispatching
`map:click:parcel` with `{key: "1874:10", commit: false}` against the
initial state commits the selection `{type: "parcel", id: "1874:10"}`
and records no Preview; dispatching the same click with `commit: true`
produces the identical state — in particular the active tab stays
`families` instead of being force-switched to `parcels`.  The origin
listener behaves the same way. -/
theorem c1_map_click_listeners_ignore_commit :
    initPanelState.selection = none ∧
    (handleMapClickParcel initPanelState "1874:10" false).selection =
      some ⟨"parcel", "1874:10"⟩ ∧
    (handleMapClickParcel initPanelState "1874:10" false).preview = none ∧
    handleMapClickParcel initPanelState "1874:10" true =
      handleMapClickParcel initPanelState "1874:10" false ∧
    (handleMapClickParcel initPanelState "1874:10" true).tab = "families" ∧
    (handleMapClickOrigin initPanelState "o1" false).selection =
      some ⟨"origin", "o1"⟩ ∧
    (handleMapClickOrigin initPanelState "o1" false).preview = none := by
  decide

/-- Claim C2 (counterexample): in dataset `d2` the direct origin→parcel
index entry for `o1` exists and is non-empty, yet `renderInfo`'s origin
branch produces the family-join parcel list `["1874:10"]`, not the
direct entry `["1874:99"]`. -/
theorem c2_counterexample :
    jsGet d2.originParcelIndex "o1" = some ["1874:99"] ∧
    renderInfoOriginParcels d2 "o1" = ["1874:10"] ∧
    ¬ renderInfoOriginParcels d2 "o1" = ["1874:99"] := by
  decide

/-- Claim C2 (amended): the direct-index preference exists for the
origin→family relation in `originPopupHtml`'s `familiesForOrigin` — a
non-empty direct `originFamilyIndex` entry is returned (deduplicated)
and the parcel-join derivation is used only otherwise — while the
panel's origin→parcel resolution is always the family-join derivation
and never consults `originParcelIndex`. -/
theorem c2_direct_index_preference (d : Dataset) (h : String)
    (direct : List String) (hdir : jsGet d.originFamilyIndex h = some direct)
    (hne : direct ≠ []) :
    familiesForOrigin d h = jsDedup direct ∧
    ∀ opi : IndexTable,
      renderInfoOriginParcels { d with originParcelIndex := opi } h =
        renderInfoOriginParcels d h := by
  constructor
  · unfold familiesForOrigin
    rw [hdir]
    simp [hne]
  · intro opi
    rfl

/-- Claim C2 witness: the amended preference theorem evaluated on `d2`,
whose direct origin→family entry for `o1` is the non-empty `["f1"]`. -/
theorem c2_direct_index_preference_witness :
    familiesForOrigin d2 "o1" = jsDedup ["f1"] :=
  (c2_direct_index_preference d2 "o1" ["f1"] (by decide) (by decide)).1

/-- Claim C3 (counterexample): with the duplicate index entry
`familyOriginIndex["f1"] = ["o1", "o1"]`, the family branch of
`renderInfo` renders the origins list with the handle `o1` twice. -/
theorem c3_counterexample :
    (renderInfoFamilyOrigins d3 "f1").map Prod.fst = ["o1", "o1"] ∧
    ¬ ((renderInfoFamilyOrigins d3 "f1").map Prod.fst).Nodup := by
  decide

/-- Claim C3 (amended): the join-derived lists are duplicate-free for
every dataset — an origin selection's displayed/highlighted parcel list,
a parcel selection's origins list, and `familiesForOrigin` all pass
through a JS `Set` — but a list copied directly from an index (here the
family branch's origins list) reproduces the index entry verbatim,
duplicates included. -/
theorem c3_join_derived_lists_nodup (d : Dataset) (id : String) :
    (renderInfoOriginParcels d id).Nodup ∧
    (renderInfoParcelOrigins d id).Nodup ∧
    (familiesForOrigin d id).Nodup ∧
    (renderInfoFamilyOrigins d id).map Prod.fst =
      (jsGet d.familyOriginIndex (resolvedFamilyId d id)).getD [] := by
  refine ⟨jsDedup_nodup _, jsDedup_nodup _, ?_, ?_⟩
  · unfold familiesForOrigin
    cases jsGet d.originFamilyIndex id with
    | none => exact jsDedup_nodup _
    | some direct =>
      by_cases hd : direct = []
      · simp only [hd, if_pos rfl]
        exact jsDedup_nodup _
      · simp only [if_neg hd]
        exact jsDedup_nodup _
  · unfold renderInfoFamilyOrigins
    rw [List.map_map]
    exact List.map_id _

/-- Claim C4 (counterexample): with no finite candidate at all,
`clampZoom` evaluates `Math.min()` of an empty list and yields
`Infinity`, not the map's current zoom (7 in this scenario). -/
theorem c4_counterexample :
    clampZoom .nonfin .nonfin .nonfin [] = JsNum.nonfin ∧
    clampZoom .nonfin .nonfin .nonfin [] ≠ JsNum.fin 7 := by
  decide

/-- Claim C4 (amended): the zoom `clampZoom` produces — the zoom
`api.fit` passes to `map.setView` in both the single-point and the
multi-point case — is non-finite exactly when no candidate (requested
zoom, per-call maxZoom, configured map maxZoom, minimum tile-layer
maxZoom) is finite, and any finite result is one of the finite
candidates and a lower bound of all of them; in particular a
single-point fit never exceeds any finite candidate. -/
theorem c4_clampZoom_min_of_finite (rq om mm : JsNum) (tls : List JsNum) :
    (clampZoom rq om mm tls = .nonfin ↔
      finiteVals [rq, om, mm, getTileLayerMaxZoom tls] = []) ∧
    ∀ q : ℤ, clampZoom rq om mm tls = .fin q →
      q ∈ finiteVals [rq, om, mm, getTileLayerMaxZoom tls] ∧
      ∀ c ∈ finiteVals [rq, om, mm, getTileLayerMaxZoom tls], q ≤ c := by
  constructor
  · exact mathMin_eq_nonfin_iff _
  · intro q hq
    exact ⟨mathMin_fin_mem _ _ hq, mathMin_fin_le _ _ hq⟩

/-- Claim C4 witness: with requested zoom 10, per-call maxZoom 8, map
maxZoom 18 and one tile layer capped at 19, the clamped zoom 8 is among
the finite candidates. -/
theorem c4_clampZoom_min_of_finite_witness :
    (8 : ℤ) ∈
      finiteVals
        [JsNum.fin 10, JsNum.fin 8, JsNum.fin 18,
          getTileLayerMaxZoom [JsNum.fin 19]] :=
  ((c4_clampZoom_min_of_finite (.fin 10) (.fin 8) (.fin 18) [.fin 19]).2 8
      (by decide)).1

/-- Claim C5 (counterexample): in `data.js`'s `loadAllData`, a failing
fetch of `persons.json` rejects the whole `Promise.all` even though
every other resource succeeds — the load aborts instead of degrading
that one resource to an empty mapping. -/
theorem c5_counterexample :
    loadAllData (FetchOutcome.failure : FetchOutcome (List (String × String)))
      (FetchOutcome.success [("1874:10", ["p1"])])
      (FetchOutcome.success [("o1", (⟨"Zittau", none, none, []⟩ : OriginRec))])
      (FetchOutcome.success ([("o1", ["1874:10"])] : IndexTable))
      (FetchOutcome.success ["feature1"]) = Except.error () := rfl

/-- Claim C5 (amended): in `part_000`'s `loadAll` every resource is
isolated — a failing fetch degrades that resource alone to the empty
mapping, a successful fetch is stored verbatim, and the other fields do
not depend on it at all.  In `data.js`'s `loadAllData`, only
`origin_parcel_index.json` is isolated (degrading to `{}`): a failure of
`persons.json`, `parcel_index.json`, `origins.json`, or
`parcels-1874.geojson` rejects the whole load, and when the four
required resources succeed the load resolves with their payloads and the
defaulted optional index. -/
theorem c5_load_isolation
    (rf rf' : FetchOutcome (List (String × Family)))
    (ro : FetchOutcome (List (String × OriginRec)))
    (rfoi rofi rfpi rpfi : FetchOutcome IndexTable)
    {α β γ ε : Type} (p : FetchOutcome α) (pidx : FetchOutcome β)
    (og : FetchOutcome γ) (opi : FetchOutcome IndexTable)
    (geo : FetchOutcome ε) :
    ((rf = .failure → (loadAll rf ro rfoi rofi rfpi rpfi).families = []) ∧
     (∀ v, rf = .success v → (loadAll rf ro rfoi rofi rfpi rpfi).families = v) ∧
     (loadAll rf ro rfoi rofi rfpi rpfi).origins =
       (loadAll rf' ro rfoi rofi rfpi rpfi).origins ∧
     (loadAll rf ro rfoi rofi rfpi rpfi).familyOriginIndex =
       (loadAll rf' ro rfoi rofi rfpi rpfi).familyOriginIndex ∧
     (loadAll rf ro rfoi rofi rfpi rpfi).originFamilyIndex =
       (loadAll rf' ro rfoi rofi rfpi rpfi).originFamilyIndex ∧
     (loadAll rf ro rfoi rofi rfpi rpfi).familyParcelIndex =
       (loadAll rf' ro rfoi rofi rfpi rpfi).familyParcelIndex ∧
     (loadAll rf ro rfoi rofi rfpi rpfi).parcelFamilyIndex =
       (loadAll rf' ro rfoi rofi rfpi rpfi).parcelFamilyIndex) ∧
    ((p = .failure → loadAllData p pidx og opi geo = .error ()) ∧
     (pidx = .failure → loadAllData p pidx og opi geo = .error ()) ∧
     (og = .failure → loadAllData p pidx og opi geo = .error ()) ∧
     (geo = .failure → loadAllData p pidx og opi geo = .error ()) ∧
     (∀ pv piv ov gv, p = .success pv → pidx = .success piv →
        og = .success ov → geo = .success gv →
        loadAllData p pidx og opi geo =
          .ok (pv, piv, ov, (jget opi).getD [], gv))) := by
  refine ⟨⟨?_, ?_, rfl, rfl, rfl, rfl, rfl⟩, ?_, ?_, ?_, ?_, ?_⟩
  · intro h1; rw [h1]; rfl
  · intro v h1; rw [h1]; rfl
  · intro h1
    rw [h1]
    cases pidx <;> cases og <;> cases geo <;> rfl
  · intro h1
    rw [h1]
    cases p <;> cases og <;> cases geo <;> rfl
  · intro h1
    rw [h1]
    cases p <;> cases pidx <;> cases geo <;> rfl
  · intro h1
    rw [h1]
    cases p <;> cases pidx <;> cases og <;> rfl
  · intro pv piv ov gv h1 h2 h3 h4
    rw [h1, h2, h3, h4]
    rfl

/-- Claim C5 witness: `loadAll` with a failing families fetch still
stores the successfully fetched origins table and degrades only the
families field; `loadAllData` with all four required resources present
and a failing optional index resolves with the empty default. -/
theorem c5_load_isolation_witness :
    (loadAll (FetchOutcome.failure)
        (FetchOutcome.success [("o1", (⟨"Zittau", none, none, []⟩ : OriginRec))])
        (FetchOutcome.success []) (FetchOutcome.success [])
        (FetchOutcome.success []) (FetchOutcome.success [])).families = [] ∧
    loadAllData (FetchOutcome.success (1 : Nat)) (FetchOutcome.success (2 : Nat))
      (FetchOutcome.success (3 : Nat)) (FetchOutcome.failure)
      (FetchOutcome.success (4 : Nat)) = Except.ok (1, 2, 3, ([] : IndexTable), 4) := by
  have h1 := c5_load_isolation (FetchOutcome.failure) (FetchOutcome.failure)
    (FetchOutcome.success [("o1", (⟨"Zittau", none, none, []⟩ : OriginRec))])
    (FetchOutcome.success []) (FetchOutcome.success [])
    (FetchOutcome.success []) (FetchOutcome.success [])
    (FetchOutcome.success (1 : Nat)) (FetchOutcome.success (2 : Nat))
    (FetchOutcome.success (3 : Nat)) (FetchOutcome.failure)
    (FetchOutcome.success (4 : Nat))
  exact ⟨h1.1.1 rfl, h1.2.2.2.2.2 1 2 3 4 rfl rfl rfl rfl⟩

/-- Claim C6 (code bug evidence): `isDescendantOfUSA` walks the parent
chain with `const parentObj = Data.origins[current.parent];
if (parentObj.name === 'USA') ...` and never checks that `parentObj`
exists.  On a table where `a_h`'s parent handle `b_h` is absent, the
call throws a `TypeError` instead of absorbing the dangling reference
and returning `false`. -/
theorem c6_isDescendantOfUSA_throws_on_dangling_parent :
    jsGet danglingTable "b_h" = none ∧
    isDescendantOfUSA danglingTable "a_h" 5 =
      some (Except.error "TypeError: cannot read name of undefined") :=
  ⟨rfl, rfl⟩

/-- Claim C7: `commitSelection(kind, id, {forceTabSwitch})` runs the
tab-switch branch exactly when `forceTabSwitch` is set or
`autoSwitchTabs` is enabled and the current tab differs from the target
tab determined by the kind; whenever it runs, the resulting state has
the target tab active and the text filter reset to empty, and the
committed selection is always stored.  The kind→tab mapping is
family→families, origin→origins, parcel→parcels. -/
theorem c7_commitSelection_tab_policy (s : PanelState) (type_ id : String)
    (force : Bool) :
    (commitSelection s type_ id force).2 =
      (force || (s.autoSwitchTabs && decide (s.tab ≠ targetTabFor type_))) ∧
    (commitSelection s type_ id force).1.tab =
      (if (commitSelection s type_ id force).2 then targetTabFor type_
       else s.tab) ∧
    (commitSelection s type_ id force).1.filter =
      (if (commitSelection s type_ id force).2 then "" else s.filter) ∧
    (commitSelection s type_ id force).1.selection = some ⟨type_, id⟩ ∧
    targetTabFor "family" = "families" ∧
    targetTabFor "origin" = "origins" ∧
    targetTabFor "parcel" = "parcels" := by
  have hcommit : commitSelection s type_ id force =
      (if (force || (s.autoSwitchTabs && decide (s.tab ≠ targetTabFor type_)))
       then (activateTab
               (applyPatch s { emptyPatch with selection := some (some ⟨type_, id⟩) })
               (targetTabFor type_), true)
       else (applyPatch s { emptyPatch with selection := some (some ⟨type_, id⟩) },
             false)) := rfl
  rw [hcommit]
  cases hb : (force || (s.autoSwitchTabs && decide (s.tab ≠ targetTabFor type_))) with
  | false => simp [activateTab, applyPatch, emptyPatch, targetTabFor]
  | true => simp [activateTab, applyPatch, emptyPatch, targetTabFor]

/-- Claim C8: `Store.set(patch)` replaces the state by the shallow merge
`{ ...state, ...patch }` — every field named in the patch takes the
patch's value, every field not named keeps its prior value — and then
synchronously notifies every current subscriber, each receiving exactly
the new snapshot. -/
theorem c8_store_set_shallow_merge (s : PanelState) (subs : List Nat)
    (p : PanelPatch) :
    (∀ v, p.tab = some v → (storeSet s subs p).1.tab = v) ∧
    (p.tab = none → (storeSet s subs p).1.tab = s.tab) ∧
    (∀ v, p.filter = some v → (storeSet s subs p).1.filter = v) ∧
    (p.filter = none → (storeSet s subs p).1.filter = s.filter) ∧
    (∀ v, p.selection = some v → (storeSet s subs p).1.selection = v) ∧
    (p.selection = none → (storeSet s subs p).1.selection = s.selection) ∧
    (∀ v, p.followClicks = some v → (storeSet s subs p).1.followClicks = v) ∧
    (p.followClicks = none → (storeSet s subs p).1.followClicks = s.followClicks) ∧
    (∀ v, p.autoSwitchTabs = some v → (storeSet s subs p).1.autoSwitchTabs = v) ∧
    (p.autoSwitchTabs = none →
      (storeSet s subs p).1.autoSwitchTabs = s.autoSwitchTabs) ∧
    (∀ v, p.preview = some v → (storeSet s subs p).1.preview = v) ∧
    (p.preview = none → (storeSet s subs p).1.preview = s.preview) ∧
    (storeSet s subs p).2 = subs.map (fun i => (i, (storeSet s subs p).1)) ∧
    (∀ i ∈ subs, (i, (storeSet s subs p).1) ∈ (storeSet s subs p).2) := by
  refine ⟨fun v hv => ?_, fun hv => ?_, fun v hv => ?_, fun hv => ?_,
    fun v hv => ?_, fun hv => ?_, fun v hv => ?_, fun hv => ?_,
    fun v hv => ?_, fun hv => ?_, fun v hv => ?_, fun hv => ?_, rfl,
    fun i hi => List.mem_map_of_mem _ hi⟩ <;>
  simp [storeSet, applyPatch, hv]

/-- Claim C8 witness: setting only the `filter` field on the initial
state stores the new filter, keeps the sibling `tab` field, and the two
registered subscribers are both notified with the new snapshot. -/
theorem c8_store_set_shallow_merge_witness :
    (storeSet initPanelState [0, 1] schPatch).1.filter = "sch" ∧
    (storeSet initPanelState [0, 1] schPatch).1.tab = "families" ∧
    (0, (storeSet initPanelState [0, 1] schPatch).1) ∈
      (storeSet initPanelState [0, 1] schPatch).2 ∧
    (1, (storeSet initPanelState [0, 1] schPatch).1) ∈
      (storeSet initPanelState [0, 1] schPatch).2 := by
  have h := c8_store_set_shallow_merge initPanelState [0, 1] schPatch
  refine ⟨h.2.2.1 "sch" rfl, (h.2.1 rfl).trans rfl, ?_, ?_⟩
  · exact h.2.2.2.2.2.2.2.2.2.2.2.2.2 0 (by simp)
  · exact h.2.2.2.2.2.2.2.2.2.2.2.2.2 1 (by simp)

/-- Claim C9 (counterexample): an origins table whose parent pointers
form a cycle reachable from the input handle on which
`isDescendantOfUSA` nonetheless terminates — the self-loop record is
named `USA`, so the loop returns `true` on its first pass instead of
running forever. -/
theorem c9_counterexample :
    jsGet usaLoopTable "usa_h" =
      some ⟨"USA", some "usa_h", none, []⟩ ∧
    isDescendantOfUSA usaLoopTable "usa_h" 1 = some (Except.ok true) :=
  ⟨rfl, rfl⟩

/-- Claim C9 (amended): acyclicity is needed for the walks in general,
but a cycle makes them run forever only when the loop's own exits never
fire: on a self-referential parent pointer whose record is not named
`USA`, `isDescendantOfUSA` diverges (no fuel suffices), and when
additionally the record's type is not in `stopTypes`, `placeLineage`
diverges as well; a cycle through a record named `USA` instead makes
`isDescendantOfUSA` terminate with `true`. -/
theorem c9_parent_cycle_divergence (origins : List (String × OriginRec))
    (h pname : String) (ptype : Option String) (palt : List AltName)
    (stopTypes : List String) (ia : Bool) (al : Option String)
    (hlook : jsGet origins h = some ⟨pname, some h, ptype, palt⟩)
    (hne : h ≠ "") (hnusa : pname ≠ "USA")
    (hstop : ∀ t, ptype = some t → t ∉ stopTypes) :
    (∀ fuel, isDescendantOfUSA origins h fuel = none) ∧
    (∀ fuel, placeLineage origins h stopTypes ia al fuel = none) := by
  constructor
  · intro fuel
    unfold isDescendantOfUSA
    rw [hlook]
    exact isDescLoop_selfloop origins h pname ptype palt hlook hne hnusa fuel
  · intro fuel
    unfold placeLineage
    rw [if_neg hne, hlook]
    rw [lineageLoop_selfloop origins h pname ptype palt stopTypes ia al hlook hne
      hstop fuel []]
    rfl

/-- Claim C9 witness: on the concrete self-loop table whose record is
named `Bruessow` with type `Village`, neither walk finishes within fuel
3 (and, by the theorem, within any fuel). -/
theorem c9_parent_cycle_divergence_witness :
    isDescendantOfUSA villageLoopTable "b_h" 3 = none ∧
    placeLineage villageLoopTable "b_h" ["Country"] false none 3 = none := by
  have h := c9_parent_cycle_divergence villageLoopTable "b_h" "Bruessow"
    (some "Village") [] ["Country"] false none rfl (by decide) (by decide)
    (by intro t ht; injection ht with h2; subst h2; decide)
  exact ⟨h.1 3, h.2 3⟩

/-- Claim C10: `clear()` empties both highlight sets by mutating the
existing `Set` objects in place — after `clear()` the snapshot's
`activeParcels` and `activeOrigins` are the same object references as
before, now empty — whereas `setActiveParcels`/`setActiveOrigins`
always install freshly constructed `Set` objects (distinct from every
live set object), so reference-based change detection sees the setters
but cannot see a `clear()`. -/
theorem c10_clear_preserves_set_identity (s : HLState)
    (keys handles : List String) (m1 m2 : Bool) (hwf : s.WF) :
    (HLStore.clear s).activeParcels.ref = s.activeParcels.ref ∧
    (HLStore.clear s).activeOrigins.ref = s.activeOrigins.ref ∧
    (HLStore.clear s).activeParcels.elems = [] ∧
    (HLStore.clear s).activeOrigins.elems = [] ∧
    (HLStore.setActiveParcels s keys m1).activeParcels.ref ≠
      s.activeParcels.ref ∧
    (HLStore.setActiveParcels s keys m1).activeParcels.ref ≠
      s.activeOrigins.ref ∧
    (HLStore.setActiveOrigins s handles m2).activeOrigins.ref ≠
      s.activeOrigins.ref ∧
    (HLStore.setActiveOrigins s handles m2).activeOrigins.ref ≠
      s.activeParcels.ref := by
  obtain ⟨h1, h2⟩ := hwf
  exact ⟨rfl, rfl, rfl, rfl, Ne.symm (Nat.ne_of_lt h1),
    Ne.symm (Nat.ne_of_lt h2), Ne.symm (Nat.ne_of_lt h2),
    Ne.symm (Nat.ne_of_lt h1)⟩

/-- Claim C10 witness: the identity-preservation theorem evaluated on a
concrete well-formed store state. -/
theorem c10_clear_preserves_set_identity_witness :
    (HLStore.clear hl0).activeParcels.ref = hl0.activeParcels.ref ∧
    (HLStore.clear hl0).activeParcels.elems = [] ∧
    (HLStore.setActiveParcels hl0 ["1874:11"] false).activeParcels.ref ≠
      hl0.activeParcels.ref := by
  have h := c10_clear_preserves_set_identity hl0 ["1874:11"] [] false false
    ⟨by decide, by decide⟩
  exact ⟨h.1, h.2.2.1, h.2.2.2.2.1⟩
